import Mathlib

/-!
Verification of the Terra_Forest_Monitor data-resolution layer.

The definitions below are a shallow embedding of the repository's
Cloudflare worker (`cloudflare/worker.ts`) and of the cache layer shared by
`src/services/enhancedForestDataService.ts` and
`src/services/serverSideDataService.ts`.  JavaScript numbers are modelled
as rationals (`ℚ`), timestamps as integers (`ℤ`, milliseconds), fallible
steps as `Option`, and the upstream network as explicit parameters holding
the outcome each fetch would have produced.  String formatting that only
interpolates already-captured numeric values (record ids, human-readable
descriptions, tile URLs) is omitted from the record structures; every field
a claim touches is carried verbatim.
-/

/-- Severity levels, `'low' | 'medium' | 'high' | 'critical'` in the source. -/
inductive Severity where
  | low
  | medium
  | high
  | critical
deriving DecidableEq, Repr

/-- Conservation statuses used by the biodiversity records
(`'stable' | 'declining' | 'critically_endangered' | 'recovering'`). -/
inductive ConservationStatus where
  | stable
  | declining
  | critically_endangered
  | recovering
deriving DecidableEq, Repr

/-- `calculateFireSeverity` from `cloudflare/worker.ts` (lines 368–373):
the threshold chain over fire radiative power and confidence. -/
def calculateFireSeverity (frp confidence : ℚ) : Severity :=
  if frp > 50 ∧ confidence > 80 then .critical
  else if frp > 25 ∧ confidence > 70 then .high
  else if frp > 10 ∧ confidence > 60 then .medium
  else .low

/-- `getDeforestationSeverity` from `cloudflare/worker.ts` (lines 375–380):
alert-count thresholds. -/
def getDeforestationSeverity (alertCount : ℚ) : Severity :=
  if alertCount > 100 then .critical
  else if alertCount > 50 then .high
  else if alertCount > 10 then .medium
  else .low

/-- `calculateFireWeatherIndex`, identical in `cloudflare/worker.ts`
(lines 361–366) and `enhancedForestDataService.ts` (lines 746–752):
`min(100, (dryness + heat + dryPeriod) / 3)`. -/
def calculateFireWeatherIndex (temp humidity precipitation : ℚ) : ℚ :=
  let dryness := max 0 (100 - humidity)
  let heat := max 0 (temp - 20)
  let dryPeriod := max 0 (30 - precipitation)
  min 100 ((dryness + heat + dryPeriod) / 3)

/-- `getLocationName` from `cloudflare/worker.ts` (lines 382–388).  The
final catch-all interpolates the coordinates into the string; the numeric
formatting is dropped, keeping the constant part of the label. -/
def getLocationName (lat lng : ℚ) : String :=
  if lat < -3 ∧ lat > -5 ∧ lng < -60 ∧ lng > -65 then "Amazon Basin, Brazil"
  else if lat < 2 ∧ lat > -2 ∧ lng > 14 ∧ lng < 17 then "Congo Basin, DRC"
  else if lat > 60 ∧ lng < -150 then "Boreal Forest, Canada"
  else if lat > 0 ∧ lat < 5 ∧ lng > 100 ∧ lng < 110 then "Southeast Asian Rainforest"
  else "Forest Region"

/-! ## Cache store

Both `enhancedForestDataService.ts` (lines 864–874) and
`serverSideDataService.ts` (lines 468–478) keep a `Map` from string keys to
`{ data, timestamp: Date.now() }` records.  `getCachedData(key, duration)`
returns the stored data iff `Date.now() - cached.timestamp < duration`;
`setCachedData` overwrites the entry (the duration argument of `set` is
never read — validity is decided at read time).  The `Map` is modelled as
an association list whose `set` replaces in place. -/

/-- One cache entry: `{ data, timestamp }`. -/
structure CacheEntry (α : Type) where
  data : α
  timestamp : ℤ
deriving Repr

/-- The service cache: a string-keyed map, modelled as an association list. -/
def CacheMap (α : Type) : Type := List (String × CacheEntry α)

/-- `Map.get` — the entry stored under `k`, if any. -/
def mapGet {α : Type} (c : CacheMap α) (k : String) : Option (CacheEntry α) :=
  (c.find? (fun p => p.1 == k)).map (·.2)

/-- `Map.set` — replace the entry under `k` in place, or append it. -/
def mapSet {α : Type} (c : CacheMap α) (k : String) (e : CacheEntry α) : CacheMap α :=
  match c with
  | [] => [(k, e)]
  | (k', e') :: rest => if k' == k then (k, e) :: rest else (k', e') :: mapSet rest k e

/-- `getCachedData(key, duration)` evaluated at clock time `now`. -/
def getCachedData {α : Type} (c : CacheMap α) (k : String) (now duration : ℤ) : Option α :=
  match mapGet c k with
  | some e => if now - e.timestamp < duration then some e.data else none
  | none => none

/-- `setCachedData(key, data)` performed at clock time `now`
(`this.cache.set(key, { data, timestamp: Date.now() })`). -/
def setCachedData {α : Type} (c : CacheMap α) (k : String) (v : α) (now : ℤ) : CacheMap α :=
  mapSet c k ⟨v, now⟩

/-- Reading the key just written finds the fresh entry. -/
theorem mapGet_mapSet {α : Type} (c : CacheMap α) (k : String) (e : CacheEntry α) :
    mapGet (mapSet c k e) k = some e := by
  induction c with
  | nil => simp [mapGet, mapSet, List.find?]
  | cons hd tl ih =>
    obtain ⟨k', e'⟩ := hd
    by_cases h : k' == k
    · simp only [mapSet, h, if_pos]
      simp only [mapGet, List.find?]
      have : k == k := by simp
      simp [this]
    · simp only [mapSet, h, if_neg, Bool.false_eq_true, not_false_iff]
      simpa [mapGet, List.find?, h] using ih

/-- `CACHE_DURATIONS` from `services/apiConfig.ts` (milliseconds). -/
def CACHE_DURATIONS_SATELLITE_DATA : ℤ := 30 * 60 * 1000

/-- `CACHE_DURATIONS.FIRE_DATA`: 15 minutes. -/
def CACHE_DURATIONS_FIRE_DATA : ℤ := 15 * 60 * 1000

/-- `CACHE_DURATIONS.WEATHER_DATA`: 10 minutes. -/
def CACHE_DURATIONS_WEATHER_DATA : ℤ := 10 * 60 * 1000

/-- `CACHE_DURATIONS.FOREST_DATA`: 24 hours. -/
def CACHE_DURATIONS_FOREST_DATA : ℤ := 24 * 60 * 60 * 1000

/-- `CACHE_DURATIONS.SPECIES_DATA`: 24 hours. -/
def CACHE_DURATIONS_SPECIES_DATA : ℤ := 24 * 60 * 60 * 1000

/-- The duration `ServerSideDataService.getDeforestationAlerts` passes to
both `getCachedData` (line 248) and `setCachedData` (line 267): it reuses
`CACHE_DURATIONS.FIRE_DATA`. -/
def deforestationAlertsCacheDuration : ℤ := CACHE_DURATIONS_FIRE_DATA

/-! ## JavaScript truthiness helpers

The worker leans on `x || d` defaulting, whose JavaScript semantics takes
`d` when `x` is `undefined`, `null`, `0` or the empty string. -/

/-- `x || d` for an optional number: `0` is falsy. -/
def orQ (x : Option ℚ) (d : ℚ) : ℚ :=
  match x with
  | some v => if v = 0 then d else v
  | none => d

/-- `x || d` for an optional string: the empty string is falsy. -/
def orS (x : Option String) (d : String) : String :=
  match x with
  | some s => if s = "" then d else s
  | none => d

/-! ## Canonical records -/

/-- A fire alert as built by `parseFireCsvData` / `generateMockFireAlerts`.
The `id` and `description` strings only interpolate the numeric fields
below and are omitted; `type` is the constant `'fire'`. -/
structure FireAlert where
  timestampMs : ℤ
  location : String
  severity : Severity
  confidence : ℚ
  lat : ℚ
  lng : ℚ
  frp : ℚ
  brightness : Option ℚ
deriving DecidableEq, Repr

/-- A deforestation alert as built by `parseGladAlertsData` /
`generateMockDeforestationAlerts` (id/description strings omitted). -/
structure DeforestationAlert where
  timestampMs : ℤ
  location : String
  severity : Severity
  confidence : ℚ
  lat : ℚ
  lng : ℚ
deriving DecidableEq, Repr

/-- A species record as built by `parseGBIFSpeciesData` /
`generateMockBiodiversityData`. -/
structure SpeciesRec where
  name : String
  scientificName : String
  status : ConservationStatus
  population : ℤ
  trend : ℚ
  habitat : String
  lastSeenMs : ℚ
  confidence : ℚ
  threatLevel : ℤ
  conservationStatus : String
deriving DecidableEq, Repr

/-- A forest region as built by `generateEnhancedForestRegions`. -/
structure ForestRegion where
  id : String
  name : String
  lat : ℚ
  lng : ℚ
  healthScore : ℚ
  deforestationRate : ℚ
  biodiversityIndex : ℚ
  alertLevel : Severity
  lastUpdateMs : ℤ
  area : ℚ
  forestCover : ℚ
  fireRisk : ℚ
  temperature : ℚ
  precipitation : ℚ
deriving DecidableEq, Repr

/-- Weather data as built by `parseOpenWeatherData` / `mockWeather`. -/
structure WeatherData where
  temperature : ℚ
  humidity : ℚ
  precipitation : ℚ
  windSpeed : ℚ
  pressure : ℚ
  cloudCover : ℚ
  uvIndex : ℚ
  fireWeatherIndex : ℚ
  location : String
  country : String
  description : String
deriving DecidableEq, Repr

/-- Satellite metadata as built by `handleSatelliteData` (the `tileUrl` and
`wmsUrl` strings, pure interpolations of `layer`, the coordinates and the
date, are omitted). -/
structure SatelliteData where
  timestampMs : ℤ
  lat : ℚ
  lng : ℚ
  coverage : ℚ
  cloudCover : ℚ
  resolution : ℚ
  layer : String
deriving DecidableEq, Repr

/-! ## Adapter parse functions -/

/-- `parseFireCsvData` from `cloudflare/worker.ts` (lines 272–298).  The
CSV text is modelled after the comma-split: each line is the list of its
numeric fields.  The source walks lines `1 .. min(lines.length, 51) - 1`
(skipping the header and keeping at most 50 data lines), skips blank
lines (here: short field lists), requires at least 13 fields, and reads
latitude, longitude, confidence and frp from fields 0, 1, 8 and 11 —
without any clamping. -/
def parseFireCsvData (now : ℤ) (lines : List (List ℚ)) : List FireAlert :=
  ((lines.drop 1).take 50).filterMap (fun fields =>
    if 13 ≤ fields.length then
      let lat := fields.getD 0 0
      let lng := fields.getD 1 0
      let confidence := fields.getD 8 0
      let frp := fields.getD 11 0
      some { timestampMs := now
             location := getLocationName lat lng
             severity := calculateFireSeverity frp confidence
             confidence := confidence
             lat := lat
             lng := lng
             frp := frp
             brightness := none }
    else none)

/-- One raw GLAD alert from the Global Forest Watch JSON (`data` array
element); absent fields are `none`.  The upstream `date` string is carried
as a parsed timestamp. -/
structure GladAlertRaw where
  dateMs : Option ℤ
  iso : Option String
  admin : Option String
  alerts : Option ℚ
  area : Option ℚ
  confidence : Option ℚ
  lat : Option ℚ
  lng : Option ℚ
deriving Repr

/-- `parseGladAlertsData` from `cloudflare/worker.ts` (lines 300–318).
`rlat i`, `rlng i` stand for the `Math.random()*10-5` / `*20-10` draws used
when a record lacks coordinates; the upstream confidence is taken by
`alert.confidence || 85`, unclamped. -/
def parseGladAlertsData (now : ℤ) (rlat rlng : ℕ → ℚ)
    (data : Option (List GladAlertRaw)) : List DeforestationAlert :=
  match data with
  | none => []
  | some l =>
    (l.take 25).enum.map (fun p =>
      let i := p.1
      let a := p.2
      { timestampMs := a.dateMs.getD now
        location := orS a.iso (orS a.admin "Forest Region")
        severity := getDeforestationSeverity (orQ a.alerts (orQ a.area 1))
        confidence := orQ a.confidence 85
        lat := orQ a.lat (rlat i * 10 - 5)
        lng := orQ a.lng (rlng i * 20 - 10) })

/-- The OpenWeather payload fields the worker reads. -/
structure OpenWeatherRaw where
  temp : ℚ
  humidity : ℚ
  pressure : ℚ
  windSpeed : ℚ
  cloudsAll : ℚ
  rain1h : Option ℚ
  snow1h : Option ℚ
  name : String
  country : String
  description : String
deriving Repr

/-- `parseOpenWeatherData` from `cloudflare/worker.ts` (lines 320–334).
Precipitation falls back `rain → snow → 0`, but the fire-weather index is
computed from `rain || 0` alone. -/
def parseOpenWeatherData (d : OpenWeatherRaw) : WeatherData :=
  { temperature := d.temp
    humidity := d.humidity
    precipitation := orQ d.rain1h (orQ d.snow1h 0)
    windSpeed := d.windSpeed
    pressure := d.pressure
    cloudCover := d.cloudsAll
    uvIndex := 0
    fireWeatherIndex := calculateFireWeatherIndex d.temp d.humidity (orQ d.rain1h 0)
    location := d.name
    country := d.country
    description := d.description }

/-- Substring test (`String.includes` in the source), via `splitOn`. -/
def strContains (s pat : String) : Bool :=
  (s.splitOn pat).length > 1

/-- The GBIF species-search result fields the worker reads. -/
structure GBIFRaw where
  key : Option ℕ
  vernacularName : Option String
  canonicalName : Option String
  scientificName : Option String
  threatStatus : Option String
  habitat : Option String
deriving Repr

/-- `determineConservationStatus` from `cloudflare/worker.ts`
(lines 352–358): substring checks over the lowercased threat status. -/
def determineConservationStatus (g : GBIFRaw) : ConservationStatus :=
  let status := (orS g.threatStatus "").toLower
  if strContains status "critically endangered" then .critically_endangered
  else if strContains status "endangered" ∨ strContains status "vulnerable" then .declining
  else if strContains status "recovering" ∨ strContains status "improving" then .recovering
  else .stable

/-- `parseGBIFSpeciesData` from `cloudflare/worker.ts` (lines 336–350).
`rPop rTrend rSeen rConf rThreat` stand for the five `Math.random()`
draws; the id string is omitted. -/
def parseGBIFSpeciesData (now : ℤ) (rPop rTrend rSeen rConf rThreat : ℚ)
    (g : GBIFRaw) : SpeciesRec :=
  { name := orS g.vernacularName (orS g.canonicalName "Unknown Species")
    scientificName := orS g.scientificName (orS g.canonicalName "")
    status := determineConservationStatus g
    population := ⌊rPop * 100000⌋ + 1000
    trend := (rTrend - 1/2) * 6
    habitat := orS g.habitat "Forest"
    lastSeenMs := (now : ℚ) - rSeen * (30 * 24 * 60 * 60 * 1000)
    confidence := 85 + rConf * 10
    threatLevel := ⌊rThreat * 100⌋
    conservationStatus := orS g.threatStatus "Data Deficient" }

/-! ## Mock generators (`cloudflare/worker.ts` lines 391–436) -/

/-- `generateMockFireAlerts`: two fixed fire alerts. -/
def generateMockFireAlerts (now : ℤ) : List FireAlert :=
  [ { timestampMs := now, location := "Amazon Basin, Brazil", severity := .high,
      confidence := 85, lat := -32/10, lng := -618/10, frp := 253/10,
      brightness := some (3205/10) },
    { timestampMs := now - 3600000, location := "Southeast Asia", severity := .critical,
      confidence := 92, lat := 15/10, lng := 1042/10, frp := 478/10,
      brightness := some (3402/10) } ]

/-- `generateMockDeforestationAlerts`: two fixed deforestation alerts. -/
def generateMockDeforestationAlerts (now : ℤ) : List DeforestationAlert :=
  [ { timestampMs := now - 7200000, location := "Congo Basin, DRC", severity := .high,
      confidence := 78, lat := -3/10, lng := 159/10 },
    { timestampMs := now - 10800000, location := "Brazilian Amazon", severity := .critical,
      confidence := 89, lat := -41/10, lng := -632/10 } ]

/-- `generateMockBiodiversityData`: exactly two fixed species records. -/
def generateMockBiodiversityData (now : ℤ) : List SpeciesRec :=
  [ { name := "Sumatran Orangutan", scientificName := "Pongo abelii",
      status := .critically_endangered, population := 14000, trend := -23/10,
      habitat := "Tropical Rainforest",
      lastSeenMs := (now : ℚ) - 5 * 24 * 60 * 60 * 1000,
      confidence := 92, threatLevel := 85,
      conservationStatus := "Critically Endangered" },
    { name := "Jaguar", scientificName := "Panthera onca",
      status := .declining, population := 64000, trend := -18/10,
      habitat := "Amazon Rainforest",
      lastSeenMs := (now : ℚ) - 2 * 24 * 60 * 60 * 1000,
      confidence := 88, threatLevel := 72,
      conservationStatus := "Near Threatened" } ]

/-- `generateEnhancedForestRegions`: two fixed regions, always returned by
the `/forest-regions` endpoint. -/
def generateEnhancedForestRegions (now : ℤ) : List ForestRegion :=
  [ { id := "amazon", name := "Amazon Basin", lat := -34653/10000, lng := -622159/10000,
      healthScore := 75, deforestationRate := 23/10, biodiversityIndex := 94,
      alertLevel := .high, lastUpdateMs := now, area := 6700000, forestCover := 83,
      fireRisk := 65, temperature := 265/10, precipitation := 2300 },
    { id := "congo", name := "Congo Basin", lat := -228/1000, lng := 158277/10000,
      healthScore := 82, deforestationRate := 18/10, biodiversityIndex := 87,
      alertLevel := .medium, lastUpdateMs := now, area := 3700000, forestCover := 89,
      fireRisk := 45, temperature := 252/10, precipitation := 1800 } ]

/-- `mockWeather(lat, lng)`; `r1 .. r6` are its six `Math.random()` draws. -/
def mockWeather (lat lng : ℚ) (r1 r2 r3 r4 r5 r6 : ℚ) : WeatherData :=
  let temp := 30 - |lat| * (6/10) + (r1 - 1/2) * 10
  let humidity := 60 + r2 * 30
  let precipitation := max 0 (20 - |lat| * (2/10)) + r3 * 5
  { temperature := temp
    humidity := humidity
    precipitation := precipitation
    windSpeed := 5 + r4 * 15
    pressure := 1013 + (r5 - 1/2) * 20
    cloudCover := r6 * 100
    uvIndex := max 0 (11 - |lat| / 10)
    fireWeatherIndex := calculateFireWeatherIndex temp humidity precipitation
    location := getLocationName lat lng
    country := "Unknown"
    description := "Clear sky" }

/-! ## Worker endpoint handlers

Each handler of `cloudflare/worker.ts` is embedded as a function of the
request parameters and of the outcome each network interaction would have
had (`none` = fetch rejected or non-2xx status).  The value returned by
`json(body, status)` is modelled by `WResp`; side effects that matter to
the claims (upstream fetches, `cache.put`) are collected in an explicit
trace. -/

/-- The body/status produced by `json(...)` in the worker. -/
structure WResp (α : Type) where
  success : Bool
  status : ℕ
  data : Option α
  source : Option String
  error : Option String
deriving Repr

/-- The observable side effects a handler can perform. -/
inductive Effect where
  | fetchUpstream
  | cachePut
deriving DecidableEq, Repr

/-- `handleWeather` from `cloudflare/worker.ts` (lines 154–183).  Query
parameters are modelled as parsed numbers (`none` = absent).  `cached` is
what `cache.match` would return, `upstream` the parsed OpenWeather body on
a 2xx response (`none` = failure), `r1 .. r6` the mock generator's random
draws.  The missing-parameter check runs before the cache lookup, the key
check and any fetch; the mock-fallback branch after a failed fetch does
not write the cache, while the no-key mock branch does. -/
def handleWeather (lat lng : Option ℚ) (keyConfigured noMock : Bool)
    (cached : Option (WResp WeatherData)) (upstream : Option OpenWeatherRaw)
    (r1 r2 r3 r4 r5 r6 : ℚ) : WResp WeatherData × List Effect :=
  match lat, lng with
  | none, _ =>
    (⟨false, 400, none, none, some "Latitude and longitude required"⟩, [])
  | some _, none =>
    (⟨false, 400, none, none, some "Latitude and longitude required"⟩, [])
  | some la, some ln =>
    match cached with
    | some c => (c, [])
    | none =>
      if ¬keyConfigured then
        if noMock then
          (⟨false, 502, none, none, some "OpenWeather key not configured"⟩, [])
        else
          (⟨true, 200, some (mockWeather la ln r1 r2 r3 r4 r5 r6), some "mock", none⟩,
           [Effect.cachePut])
      else
        match upstream with
        | some raw =>
          (⟨true, 200, some (parseOpenWeatherData raw), some "openweather", none⟩,
           [Effect.fetchUpstream, Effect.cachePut])
        | none =>
          if noMock then
            (⟨false, 502, none, none, some "Weather failed"⟩, [Effect.fetchUpstream])
          else
            (⟨true, 200, some (mockWeather la ln r1 r2 r3 r4 r5 r6),
              some "mock-fallback", none⟩, [Effect.fetchUpstream])

/-- `handleSatelliteData` from `cloudflare/worker.ts` (lines 234–251).
`r1, r2` are the coverage/cloud-cover random draws.  The handler performs
no upstream fetch and no cache write on any path. -/
def handleSatelliteData (lat lng : Option ℚ) (layer : Option String)
    (now : ℤ) (r1 r2 : ℚ) : WResp SatelliteData × List Effect :=
  let layerName := layer.getD "MODIS_Terra_CorrectedReflectance_TrueColor"
  match lat, lng with
  | none, _ =>
    (⟨false, 400, none, none, some "Latitude and longitude required"⟩, [])
  | some _, none =>
    (⟨false, 400, none, none, some "Latitude and longitude required"⟩, [])
  | some la, some ln =>
    (⟨true, 200,
      some { timestampMs := now, lat := la, lng := ln,
             coverage := 85 + r1 * 10, cloudCover := r2 * 30,
             resolution := if strContains layerName "MODIS" then 250 else 375,
             layer := layerName },
      some "nasa-gibs", none⟩, [])

/-- `handleForestRegions` from `cloudflare/worker.ts` (lines 185–195).
The source reads no query parameter at all — in particular it never
inspects `no_mock` — and, on a cache miss, always answers with the
server-generated synthetic regions. -/
def handleForestRegions (now : ℤ) (noMock : Bool)
    (cached : Option (WResp (List ForestRegion))) :
    WResp (List ForestRegion) × List Effect :=
  match cached with
  | some c => (c, [])
  | none =>
    (⟨true, 200, some (generateEnhancedForestRegions now), some "server-generated", none⟩,
     [Effect.cachePut])

/-- The NASA FIRMS dataset chain tried by `handleFireAlerts` when no
`dataset` override is given. -/
def fireDatasets : List String := ["MODIS_NRT", "VIIRS_SNPP_NRT", "VIIRS_NOAA20_NRT"]

/-- The `for (const dataset of datasets)` loop of `handleFireAlerts`:
first dataset whose fetch+parse succeeds, with its name. -/
def firstFireSuccess (results : String → Option (List (List ℚ)))
    : List String → Option (String × List (List ℚ))
  | [] => none
  | d :: rest =>
    match results d with
    | some csv => some (d, csv)
    | none => firstFireSuccess results rest

/-- `handleFireAlerts` from `cloudflare/worker.ts` (lines 75–120).
`results d` is the parsed CSV (lines of numeric fields) the fetch for
dataset `d` would deliver, `none` meaning a rejected fetch or non-OK
status.  With no key configured: error 502 under `no_mock=1`, else cached
mock data; with a key: the dataset loop, then under total failure error
502 under `no_mock=1`, else an uncached mock fallback. -/
def handleFireAlerts (now : ℤ) (noMock keyConfigured : Bool)
    (cached : Option (WResp (List FireAlert)))
    (results : String → Option (List (List ℚ))) :
    WResp (List FireAlert) × List Effect :=
  match cached with
  | some c => (c, [])
  | none =>
    if ¬keyConfigured then
      if noMock then
        (⟨false, 502, none, none, some "NASA FIRMS key not configured"⟩, [])
      else
        (⟨true, 200, some (generateMockFireAlerts now), some "mock", none⟩,
         [Effect.cachePut])
    else
      match firstFireSuccess results fireDatasets with
      | some (d, csv) =>
        (⟨true, 200, some (parseFireCsvData now csv),
          some ("nasa-firms:" ++ d.toLower), none⟩,
         [Effect.fetchUpstream, Effect.cachePut])
      | none =>
        if noMock then
          (⟨false, 502, none, none, some "Fire alerts failed"⟩, [Effect.fetchUpstream])
        else
          (⟨true, 200, some (generateMockFireAlerts now), some "mock-fallback", none⟩,
           [Effect.fetchUpstream])

/-- `handleDeforestationAlerts` from `cloudflare/worker.ts` (lines
122–152).  `upstream` is the parsed GFW body on success (`none` = fetch or
status failure; the inner `Option` is the `data?.data` array check).
Unlike the weather handler, the mock fallback here is written to the
cache. -/
def handleDeforestationAlerts (now : ℤ) (noMock : Bool)
    (cached : Option (WResp (List DeforestationAlert)))
    (upstream : Option (Option (List GladAlertRaw))) (rlat rlng : ℕ → ℚ) :
    WResp (List DeforestationAlert) × List Effect :=
  match cached with
  | some c => (c, [])
  | none =>
    match upstream with
    | some body =>
      (⟨true, 200, some (parseGladAlertsData now rlat rlng body),
        some "global-forest-watch", none⟩,
       [Effect.fetchUpstream, Effect.cachePut])
    | none =>
      if noMock then
        (⟨false, 502, none, none, some "Deforestation alerts failed"⟩,
         [Effect.fetchUpstream])
      else
        (⟨true, 200, some (generateMockDeforestationAlerts now),
          some "mock-fallback", none⟩,
         [Effect.fetchUpstream, Effect.cachePut])

/-! ## The biodiversity handler and its backfill loop

`handleBiodiversity` (`cloudflare/worker.ts` lines 197–232) queries five
hard-coded species, then runs

```text
while (results.length < Math.min(limit, speciesQueries.length)) \x7b
  if (url.searchParams.get(no_mock) === 1) break;
  results.push(...generateMockBiodiversityData().slice(results.length, results.length + 1));
\x7d
```

and finally answers with `results.slice(0, limit)`.  The loop is embedded
with an explicit fuel argument: `bioBackfill fuel …` returns `some state`
when the loop exits within `fuel` iterations and `none` otherwise, so
`(∀ fuel, … = none)` states that the source loop never terminates. -/

/-- The number of hard-coded GBIF species queries (`speciesQueries.length`). -/
def speciesQueriesLength : ℕ := 5

/-- The backfill `while` loop, fuelled.  One iteration appends
`generateMockBiodiversityData().slice(len, len + 1)` — one record while
`len < 2`, nothing at all once `len ≥ 2`. -/
def bioBackfill (now : ℤ) (noMock : Bool) (target : ℕ) :
    ℕ → List SpeciesRec → Option (List SpeciesRec)
  | 0, _ => none
  | fuel + 1, results =>
    if results.length < target then
      if noMock then some results
      else
        bioBackfill now noMock target fuel
          (results ++ ((generateMockBiodiversityData now).drop results.length).take 1)
    else some results

/-- The data assembly of `handleBiodiversity`: live GBIF successes, the
backfill loop toward `min(limit, 5)`, then `slice(0, limit)`. -/
def handleBiodiversityData (now : ℤ) (noMock : Bool) (limit : ℕ)
    (liveResults : List SpeciesRec) (fuel : ℕ) : Option (List SpeciesRec) :=
  (bioBackfill now noMock (min limit speciesQueriesLength) fuel liveResults).map
    (fun r => r.take limit)

/-- The mock biodiversity generator yields exactly two records. -/
theorem generateMockBiodiversityData_length (now : ℤ) :
    (generateMockBiodiversityData now).length = 2 := rfl

/-- Once the backfill loop holds at least two records but still fewer than
its target, `slice(len, len + 1)` of the two-record mock list is empty, so
no iteration makes progress and the loop never exits, whatever the fuel. -/
theorem bioBackfill_no_progress (now : ℤ) (target : ℕ) (htarget : 2 < target) :
    ∀ (fuel : ℕ) (r : List SpeciesRec), r.length < target →
      bioBackfill now false target fuel r = none := by
  intro fuel
  induction fuel with
  | zero => intro r _; rfl
  | succ n ih =>
    intro r hr
    have hlen : (r ++ ((generateMockBiodiversityData now).drop r.length).take 1).length < target := by
      rw [List.length_append, List.length_take, List.length_drop,
        generateMockBiodiversityData_length]
      rcases Nat.lt_or_ge r.length 2 with h2 | h2
      · have : min 1 (2 - r.length) ≤ 1 := Nat.min_le_left _ _
        omega
      · have : 2 - r.length = 0 := Nat.sub_eq_zero_of_le h2
        rw [this]
        simpa using hr
    simp only [bioBackfill, hr, if_pos, if_neg, Bool.false_eq_true, not_false_iff]
    exact ih _ hlen

/-! ## C1 / C2 — the biodiversity backfill loop does not terminate -/

/-- C1.  The claim states that with mocks allowed the worker's
biodiversity resolution always terminates with a non-empty result for
every live-success count and limit.  It does not: at the default
`limit = 20` with all five GBIF lookups failing (no live results) and
`no_mock` off, the backfill target is `min(20, 5) = 5`, the mock list
holds only two records, and `slice(len, len+1)` is empty once two records
are present — the `while` loop never exits, for any iteration bound. -/
theorem handleBiodiversity_nonterminating_default (fuel : ℕ) :
    handleBiodiversityData 0 false 20 [] fuel = none := by
  unfold handleBiodiversityData
  rw [bioBackfill_no_progress 0 (min 20 speciesQueriesLength) (by decide) fuel []
    (by simp [speciesQueriesLength])]
  rfl

/-- C2.  The spec's parallel-join case — five species requested, two live
successes, three live failures — is claimed to yield exactly five records
(two live plus three mock) when mocks are allowed, and exactly the two
live records when live-only.  The live-only half holds, but with mocks
allowed the backfill loop hangs: from two records `slice(2, 3)` of the
two-record mock list is empty, so no fuel bound makes the handler
return. -/
theorem handleBiodiversity_join_backfill (fuel : ℕ) (a b : SpeciesRec) :
    handleBiodiversityData 0 false 5 [a, b] fuel = none ∧
    handleBiodiversityData 0 true 5 [a, b] (fuel + 1) = some [a, b] := by
  constructor
  · unfold handleBiodiversityData
    rw [bioBackfill_no_progress 0 (min 5 speciesQueriesLength) (by decide) fuel [a, b]
      (by simp [speciesQueriesLength])]
    rfl
  · unfold handleBiodiversityData bioBackfill
    simp [speciesQueriesLength]

/-! ## C3 — live-only strictness fails for `/forest-regions` -/

/-- C3 counterexample.  With live-only mode on (`no_mock=1`) the
`/forest-regions` endpoint still answers success with the two
server-generated synthetic regions: its handler never reads the flag. -/
theorem forestRegions_ignores_no_mock :
    (handleForestRegions 0 true none).1.success = true ∧
    (handleForestRegions 0 true none).1.source = some "server-generated" ∧
    (handleForestRegions 0 true none).1.data = some (generateEnhancedForestRegions 0) ∧
    (generateEnhancedForestRegions 0).length = 2 :=
  ⟨rfl, rfl, rfl, rfl⟩

/-- C3 amended.  For every endpoint with a live upstream the strictness
holds — fire, deforestation and weather answer an explicit 502 error when
live-only is on and every route fails, and biodiversity answers an empty
list — but `/forest-regions` ignores the `no_mock` flag and always returns
the server-generated synthetic regions. -/
theorem worker_live_only_strictness (now : ℤ) (fuel : ℕ) (rlat rlng : ℕ → ℚ) :
    (handleFireAlerts now true true none (fun _ => none)).1 =
      ⟨false, 502, none, none, some "Fire alerts failed"⟩ ∧
    (handleDeforestationAlerts now true none none rlat rlng).1 =
      ⟨false, 502, none, none, some "Deforestation alerts failed"⟩ ∧
    (handleWeather (some 10) (some 20) true true none none 0 0 0 0 0 0).1 =
      ⟨false, 502, none, none, some "Weather failed"⟩ ∧
    handleBiodiversityData now true 20 [] (fuel + 1) = some [] ∧
    (handleForestRegions now true none).1 =
      ⟨true, 200, some (generateEnhancedForestRegions now), some "server-generated", none⟩ := by
  refine ⟨rfl, rfl, rfl, ?_, rfl⟩
  unfold handleBiodiversityData bioBackfill
  simp [speciesQueriesLength]

/-! ## C4 — route order in `getForestAlerts` -/

/-- C5.  For every key, value and TTL: a read at time `now` after
`set(k, v, wt)` yields `v` exactly when `now - wt < ttl` (expired entries
are never returned); a read immediately after the write yields `v` for
every positive TTL; and a second `set` on the same key overwrites — the
read observes only the second value and the second write time. -/
theorem cache_get_set_correct (α : Type) (c : CacheMap α) (k : String)
    (v₁ v₂ : α) (wt wt₂ now ttl : ℤ) :
    getCachedData (setCachedData c k v₁ wt) k now ttl =
      (if now - wt < ttl then some v₁ else none) ∧
    getCachedData (setCachedData c k v₁ wt) k wt ttl =
      (if 0 < ttl then some v₁ else none) ∧
    getCachedData (setCachedData (setCachedData c k v₁ wt) k v₂ wt₂) k now ttl =
      (if now - wt₂ < ttl then some v₂ else none) := by
  refine ⟨?_, ?_, ?_⟩
  · unfold getCachedData setCachedData
    rw [mapGet_mapSet]
  · unfold getCachedData setCachedData
    rw [mapGet_mapSet]
    simp
  · unfold getCachedData setCachedData
    rw [mapGet_mapSet]

/-- C6 counterexample.  A cached deforestation-alerts entry written at
time 0 is already a miss 20 minutes later, although 20 minutes is well
within the claimed 60-minute validity window: the service reuses the
15-minute `FIRE_DATA` TTL (`apiConfig.ts` defines no 60-minute class). -/
theorem deforestation_ttl_not_60min :
    getCachedData
      (setCachedData ([] : CacheMap (List DeforestationAlert))
        "deforestation_server_BRA_90_50" (generateMockDeforestationAlerts 0) 0)
      "deforestation_server_BRA_90_50" (20 * 60 * 1000)
      deforestationAlertsCacheDuration = none ∧
    (20 * 60 * 1000 : ℤ) < 60 * 60 * 1000 := by
  constructor
  · unfold getCachedData setCachedData
    rw [mapGet_mapSet]
    norm_num [deforestationAlertsCacheDuration, CACHE_DURATIONS_FIRE_DATA]
  · norm_num

/-- C6 amended.  The TTL classes are the fixed per-category constants of
`apiConfig.ts` — fire 15 min, weather 10 min, forest-region and species
data 24 h, satellite metadata 30 min — and deforestation alerts reuse the
15-minute fire class, so a cached deforestation-alert entry is valid
exactly while less than 15 minutes (not 60) have elapsed since the
write. -/
theorem cache_ttl_classes (c : CacheMap (List DeforestationAlert))
    (k : String) (v : List DeforestationAlert) (wt now : ℤ) :
    CACHE_DURATIONS_FIRE_DATA = 15 * 60 * 1000 ∧
    CACHE_DURATIONS_WEATHER_DATA = 10 * 60 * 1000 ∧
    CACHE_DURATIONS_FOREST_DATA = 24 * 60 * 60 * 1000 ∧
    CACHE_DURATIONS_SPECIES_DATA = 24 * 60 * 60 * 1000 ∧
    CACHE_DURATIONS_SATELLITE_DATA = 30 * 60 * 1000 ∧
    deforestationAlertsCacheDuration = 15 * 60 * 1000 ∧
    getCachedData (setCachedData c k v wt) k now deforestationAlertsCacheDuration =
      (if now - wt < 15 * 60 * 1000 then some v else none) := by
  refine ⟨rfl, rfl, rfl, rfl, rfl, rfl, ?_⟩
  unfold getCachedData setCachedData
  rw [mapGet_mapSet]
  rfl

/-! ## C7 — severity thresholds -/

/-- C7.  `calculateFireSeverity` follows the shared threshold chain
exactly — critical iff `frp > 50 ∧ confidence > 80`, then high iff
`frp > 25 ∧ confidence > 70`, then medium iff `frp > 10 ∧ confidence > 60`,
else low — with `calculateFireSeverity 60 85 = critical` and
`calculateFireSeverity 5 50 = low`; and `getDeforestationSeverity` uses the
`> 100 / > 50 / > 10` alert-count thresholds. -/
theorem severity_thresholds (frp conf cnt : ℚ) :
    (calculateFireSeverity frp conf = .critical ↔ frp > 50 ∧ conf > 80) ∧
    (calculateFireSeverity frp conf = .high ↔
      ¬(frp > 50 ∧ conf > 80) ∧ frp > 25 ∧ conf > 70) ∧
    (calculateFireSeverity frp conf = .medium ↔
      ¬(frp > 50 ∧ conf > 80) ∧ ¬(frp > 25 ∧ conf > 70) ∧ frp > 10 ∧ conf > 60) ∧
    (calculateFireSeverity frp conf = .low ↔
      ¬(frp > 50 ∧ conf > 80) ∧ ¬(frp > 25 ∧ conf > 70) ∧ ¬(frp > 10 ∧ conf > 60)) ∧
    calculateFireSeverity 60 85 = .critical ∧
    calculateFireSeverity 5 50 = .low ∧
    (getDeforestationSeverity cnt = .critical ↔ cnt > 100) ∧
    (getDeforestationSeverity cnt = .high ↔ ¬(cnt > 100) ∧ cnt > 50) ∧
    (getDeforestationSeverity cnt = .medium ↔ ¬(cnt > 100) ∧ ¬(cnt > 50) ∧ cnt > 10) ∧
    (getDeforestationSeverity cnt = .low ↔ ¬(cnt > 100) ∧ ¬(cnt > 50) ∧ ¬(cnt > 10)) := by
  refine ⟨?_, ?_, ?_, ?_, by norm_num [calculateFireSeverity],
    by norm_num [calculateFireSeverity], ?_, ?_, ?_, ?_⟩ <;>
    simp only [calculateFireSeverity, getDeforestationSeverity] <;>
    split_ifs <;> simp_all

/-! ## C8 — fire-weather index -/

/-- C8 counterexample.  At `temp = 30`, `humidity = 20`,
`precipitation = 0` the index is `(80 + 10 + 30) / 3 = 40`, which differs
from the claimed `36.67` by far more than the allowed `±0.01`. -/
theorem fire_weather_index_at_30_20_0 :
    calculateFireWeatherIndex 30 20 0 = 40 ∧
    ¬(|calculateFireWeatherIndex 30 20 0 - 3667 / 100| ≤ 1 / 100) := by
  have h : calculateFireWeatherIndex 30 20 0 = 40 := by
    unfold calculateFireWeatherIndex
    norm_num
  refine ⟨h, ?_⟩
  rw [h]
  rw [abs_of_pos (by norm_num)]
  norm_num

/-- C8 amended.  The index equals
`min(100, (max(0, 100 - humidity) + max(0, temp - 20) + max(0, 30 - precipitation)) / 3)`
for every input — identically in the worker and the enhanced service —
and at `temp = 30`, `humidity = 20`, `precipitation = 0` it equals `40`
(`(80 + 10 + 30) / 3`), not `36.67`. -/
theorem fire_weather_index_formula (t h p : ℚ) :
    calculateFireWeatherIndex t h p =
      min 100 ((max 0 (100 - h) + max 0 (t - 20) + max 0 (30 - p)) / 3) ∧
    calculateFireWeatherIndex 30 20 0 = 40 := by
  constructor
  · rfl
  · unfold calculateFireWeatherIndex
    norm_num

/-! ## C9 — confidence ranges -/

/-- The confidence of every parsed fire alert is CSV field 8, verbatim:
`parseFireCsvData` applies no clamping. -/
theorem parseFireCsvData_confidence_verbatim (now : ℤ) (lines : List (List ℚ)) :
    (parseFireCsvData now lines).map FireAlert.confidence =
      (((lines.drop 1).take 50).filter (fun f => decide (13 ≤ f.length))).map
        (fun f => f.getD 8 0) := by
  unfold parseFireCsvData
  induction (lines.drop 1).take 50 with
  | nil => rfl
  | cons hd tl ih =>
    by_cases h : 13 ≤ hd.length
    · simpa [List.filterMap_cons, List.filter_cons, h] using ih
    · simpa [List.filterMap_cons, List.filter_cons, h] using ih

/-- C9 counterexample.  A syntactically valid upstream CSV whose
confidence column reads 150 parses to a fire alert whose confidence field
is 150 — outside `[0, 100]`, so the parsed confidence is not clamped. -/
theorem fire_csv_confidence_unclamped :
    (parseFireCsvData 0 [[], [0, 0, 0, 0, 0, 0, 0, 0, 150, 0, 0, 60, 0]]).map
        FireAlert.confidence = [150] ∧
    ¬((150 : ℚ) ≤ 100) := by
  constructor
  · rfl
  · norm_num

/-- The confidence of every parsed GLAD deforestation alert is the
upstream `confidence` with an `|| 85` default, verbatim:
`parseGladAlertsData` applies no clamping either. -/
theorem parseGladAlertsData_confidence_verbatim (now : ℤ) (rlat rlng : ℕ → ℚ)
    (l : List GladAlertRaw) :
    (parseGladAlertsData now rlat rlng (some l)).map DeforestationAlert.confidence =
      (l.take 25).map (fun a => orQ a.confidence 85) := by
  unfold parseGladAlertsData
  rw [List.map_map]
  show (l.take 25).enum.map ((fun a : GladAlertRaw => orQ a.confidence 85) ∘ Prod.snd) = _
  rw [← List.map_map, List.enum_map_snd]

/-- C9 amended.  The mock and server-side generators do keep confidence,
threat level and the percentage-valued fields inside `[0, 100]` (for
random draws in `[0, 1]`) — including the `/forest-regions` generator's
health score, forest cover, biodiversity index and fire risk — but the
adapter parse functions pass upstream confidence through unclamped: a
parsed fire alert's confidence is CSV field 8 verbatim, and a parsed
deforestation alert's confidence is the upstream value with only an
`|| 85` default for absent-or-zero. -/
theorem confidence_ranges (now : ℤ) (lines : List (List ℚ))
    (rPop rTrend rSeen rConf rThreat r1 r2 r3 r4 r5 r6 la ln : ℚ) (g : GBIFRaw)
    (rlat rlng : ℕ → ℚ) (glad : List GladAlertRaw) :
    ((generateMockFireAlerts now).filter
      (fun a => decide (a.confidence < 0) || decide (100 < a.confidence))) = [] ∧
    ((generateMockDeforestationAlerts now).filter
      (fun a => decide (a.confidence < 0) || decide (100 < a.confidence))) = [] ∧
    ((generateMockBiodiversityData now).filter
      (fun a => decide (a.confidence < 0) || decide (100 < a.confidence) ||
        decide (a.threatLevel < 0) || decide (100 < a.threatLevel))) = [] ∧
    ((generateEnhancedForestRegions now).filter
      (fun r => decide (r.healthScore < 0) || decide (100 < r.healthScore) ||
        decide (r.forestCover < 0) || decide (100 < r.forestCover) ||
        decide (r.biodiversityIndex < 0) || decide (100 < r.biodiversityIndex) ||
        decide (r.fireRisk < 0) || decide (100 < r.fireRisk))) = [] ∧
    (0 ≤ rConf ∧ rConf ≤ 1 →
      0 ≤ (parseGBIFSpeciesData now rPop rTrend rSeen rConf rThreat g).confidence ∧
      (parseGBIFSpeciesData now rPop rTrend rSeen rConf rThreat g).confidence ≤ 100) ∧
    (0 ≤ rThreat ∧ rThreat ≤ 1 →
      0 ≤ (parseGBIFSpeciesData now rPop rTrend rSeen rConf rThreat g).threatLevel ∧
      (parseGBIFSpeciesData now rPop rTrend rSeen rConf rThreat g).threatLevel ≤ 100) ∧
    (0 ≤ r2 ∧ r2 ≤ 1 ∧ 0 ≤ r6 ∧ r6 ≤ 1 →
      0 ≤ (mockWeather la ln r1 r2 r3 r4 r5 r6).humidity ∧
      (mockWeather la ln r1 r2 r3 r4 r5 r6).humidity ≤ 100 ∧
      0 ≤ (mockWeather la ln r1 r2 r3 r4 r5 r6).cloudCover ∧
      (mockWeather la ln r1 r2 r3 r4 r5 r6).cloudCover ≤ 100) ∧
    (parseFireCsvData now lines).map FireAlert.confidence =
      (((lines.drop 1).take 50).filter (fun f => decide (13 ≤ f.length))).map
        (fun f => f.getD 8 0) ∧
    (parseGladAlertsData now rlat rlng (some glad)).map DeforestationAlert.confidence =
      (glad.take 25).map (fun a => orQ a.confidence 85) := by
  refine ⟨?_, ?_, ?_, ?_, ?_, ?_, ?_, parseFireCsvData_confidence_verbatim now lines,
    parseGladAlertsData_confidence_verbatim now rlat rlng glad⟩
  · simp [generateMockFireAlerts, List.filter]
    norm_num
  · simp [generateMockDeforestationAlerts, List.filter]
    norm_num
  · simp [generateMockBiodiversityData, List.filter]
    norm_num
  · simp [generateEnhancedForestRegions, List.filter]
    norm_num
  · rintro ⟨h0, h1⟩
    unfold parseGBIFSpeciesData
    constructor
    · positivity
    · nlinarith
  · rintro ⟨h0, h1⟩
    unfold parseGBIFSpeciesData
    constructor
    · simp only
      positivity
    · simp only
      have : (rThreat * 100 : ℚ) ≤ 100 := by nlinarith
      calc (⌊rThreat * 100⌋ : ℤ) ≤ ⌊(100 : ℚ)⌋ := Int.floor_le_floor this
        _ = 100 := by norm_num
  · rintro ⟨h20, h21, h60, h61⟩
    unfold mockWeather
    refine ⟨by nlinarith, by nlinarith, by nlinarith, by nlinarith⟩

/-! ## C10 — missing latitude/longitude -/

/-- C10.  Whenever the `lat` or `lng` query parameter is absent, both
`/weather` and `/satellite-data` answer
`{success: false, error: "Latitude and longitude required"}` with HTTP
status 400, perform no upstream fetch, and write nothing to the cache —
the check precedes the cache lookup, the key check and any fetch. -/
theorem missing_latlng_400_no_effects (lat lng : Option ℚ) (k m : Bool)
    (cached : Option (WResp WeatherData)) (upstream : Option OpenWeatherRaw)
    (r1 r2 r3 r4 r5 r6 ra rb : ℚ) (layer : Option String) (now : ℤ) :
    handleWeather none lng k m cached upstream r1 r2 r3 r4 r5 r6 =
      (⟨false, 400, none, none, some "Latitude and longitude required"⟩, []) ∧
    handleWeather lat none k m cached upstream r1 r2 r3 r4 r5 r6 =
      (⟨false, 400, none, none, some "Latitude and longitude required"⟩, []) ∧
    handleSatelliteData none lng layer now ra rb =
      (⟨false, 400, none, none, some "Latitude and longitude required"⟩, []) ∧
    handleSatelliteData lat none layer now ra rb =
      (⟨false, 400, none, none, some "Latitude and longitude required"⟩, []) := by
  refine ⟨rfl, ?_, rfl, ?_⟩ <;> cases lat <;> rfl
